import Mathlib

/-!
Shallow embedding of the Configuration Validation Engine of
`infra/scripts/validate-env-config.py` (classes `AzureResourceValidator`
and `EnvironmentValidator`), together with theorems checking the
natural-language specification against it.

Machine strings are Lean `String`s; the Python regular expressions used by
the naming rules all have the shape `^[C1][C2]{lo,hi}[C3]$` over single
character classes, which is captured exactly by the `Pat` datatype below.
The external Azure-CLI probe (`check_azure_cli_availability`) performs
process execution; its observable outcomes are captured by the
`ProbeOutcome` datatype, one constructor per control path of the method.
The timestamp field of the summary is real time and is omitted.
-/

/-- Single quote character, used inside validator message strings. -/
def squo : String := "\x27"

/-- Lower-casing of Python `str.lower()` on the validator's ASCII data,
as a structural map over the character list. -/
def pyLower (s : String) : String := ⟨s.data.map Char.toLower⟩

/-- Whitespace stripping of Python `str.strip()`, as structural list
operations over the character list. -/
def pyStrip (s : String) : String :=
  ⟨((s.data.dropWhile Char.isWhitespace).reverse.dropWhile Char.isWhitespace).reverse⟩

/-- Character class of an Azure naming regex: a set of inclusive ranges
plus individual extra characters. -/
structure CharRangeClass where
  ranges : List (Char × Char)
  extras : List Char
deriving DecidableEq, Repr

/-- Membership of a character in a character class. -/
def CharRangeClass.mem (cc : CharRangeClass) (c : Char) : Bool :=
  cc.ranges.any (fun p => decide (p.1 ≤ c) && decide (c ≤ p.2)) || cc.extras.contains c

/-- Shapes of the anchored naming regexes of `NAMING_PATTERNS`:
`rep cls lo hi` is the regex `^[cls]{lo,hi}$`, `firstRep f cls lo hi` is
`^[f][cls]{lo,hi}$`, and `firstRepLast f cls l lo hi` is
`^[f][cls]{lo,hi}[l]$`. -/
inductive Pat where
  | rep (cls : CharRangeClass) (lo hi : Nat)
  | firstRep (f cls : CharRangeClass) (lo hi : Nat)
  | firstRepLast (f cls l : CharRangeClass) (lo hi : Nat)
deriving DecidableEq, Repr

/-- Full-string matching of a `Pat` against a string, the semantics of
`re.match` on the anchored patterns of the source. Because every
quantifier in the source patterns applies to a single-character class,
the match decomposition is unique: one leading character, a bounded run,
and optionally one trailing character. -/
def Pat.matches : Pat → String → Bool
  | .rep cls lo hi, s =>
      let cs := s.toList
      cs.all cls.mem && decide (lo ≤ cs.length) && decide (cs.length ≤ hi)
  | .firstRep f cls lo hi, s =>
      match s.toList with
      | [] => false
      | c :: rest =>
          f.mem c && rest.all cls.mem
            && decide (lo ≤ rest.length) && decide (rest.length ≤ hi)
  | .firstRepLast f cls l lo hi, s =>
      match s.toList with
      | [] => false
      | c :: rest =>
          match rest.getLast? with
          | none => false
          | some lc =>
              f.mem c && l.mem lc && rest.dropLast.all cls.mem
                && decide (lo ≤ rest.dropLast.length)
                && decide (rest.dropLast.length ≤ hi)

/-- Character class `[a-z]`. -/
def lowerClass : CharRangeClass := ⟨[('a', 'z')], []⟩

/-- Character class `[a-zA-Z]`. -/
def alphaClass : CharRangeClass := ⟨[('a', 'z'), ('A', 'Z')], []⟩

/-- Character class `[a-zA-Z0-9]`. -/
def alnumClass : CharRangeClass := ⟨[('a', 'z'), ('A', 'Z'), ('0', '9')], []⟩

/-- Character class `[a-z0-9]`. -/
def lowerDigitClass : CharRangeClass := ⟨[('a', 'z'), ('0', '9')], []⟩

/-- Character class `[a-zA-Z0-9-]`. -/
def alnumHyphenClass : CharRangeClass := ⟨[('a', 'z'), ('A', 'Z'), ('0', '9')], ['-']⟩

/-- Character class `[a-z0-9-]`. -/
def lowerDigitHyphenClass : CharRangeClass := ⟨[('a', 'z'), ('0', '9')], ['-']⟩

/-- Character class `[a-zA-Z0-9-_().]` (also written `[a-zA-Z0-9-_.()]`
in the resource-group pattern; same character set). -/
def alnumExtendedClass : CharRangeClass :=
  ⟨[('a', 'z'), ('A', 'Z'), ('0', '9')], ['-', '_', '(', ')', '.']⟩

/-- One entry of `AzureResourceValidator.NAMING_PATTERNS`. -/
structure NamingRule where
  pattern : Pat
  min_length : Nat
  max_length : Nat
  scope : String
  description : String
  restrictions : List String
deriving DecidableEq, Repr

/-- Naming rule for `KEYVAULT_NAME`. -/
def keyVaultRule : NamingRule :=
  { pattern := Pat.firstRepLast alphaClass alnumHyphenClass alnumClass 1 22
    min_length := 3, max_length := 24, scope := "global"
    description := "Key Vault name"
    restrictions :=
      ["Must start with letter", "Cannot end with hyphen",
       "Cannot have consecutive hyphens", "Alphanumeric and hyphens only"] }

/-- Naming rule for `STORAGE_ACCOUNT_NAME`. -/
def storageAccountRule : NamingRule :=
  { pattern := Pat.rep lowerDigitClass 3 24
    min_length := 3, max_length := 24, scope := "global"
    description := "Storage Account name"
    restrictions :=
      ["Lowercase letters and numbers only", "No hyphens or special characters",
       "No uppercase letters"] }

/-- Naming rule for `CONTAINER_REGISTRY_NAME`. -/
def containerRegistryRule : NamingRule :=
  { pattern := Pat.firstRep alphaClass alnumClass 4 49
    min_length := 5, max_length := 50, scope := "global"
    description := "Container Registry name"
    restrictions :=
      ["Must start with letter", "Alphanumeric only (no hyphens)",
       "Cannot start with number"] }

/-- Naming rule for `COGNITIVE_SEARCH_NAME`. -/
def cognitiveSearchRule : NamingRule :=
  { pattern := Pat.firstRepLast lowerDigitClass lowerDigitHyphenClass lowerDigitClass 0 58
    min_length := 2, max_length := 60, scope := "global"
    description := "Cognitive Search service name"
    restrictions :=
      ["Lowercase letters, numbers, and hyphens only",
       "Cannot start or end with hyphen", "Cannot have consecutive hyphens"] }

/-- Naming rule for `AI_SERVICES_NAME`. -/
def aiServicesRule : NamingRule :=
  { pattern := Pat.firstRepLast alnumClass alnumHyphenClass alnumClass 0 62
    min_length := 2, max_length := 64, scope := "resource_group"
    description := "AI Services account name"
    restrictions :=
      ["Cannot start or end with hyphen", "Alphanumeric and hyphens only"] }

/-- Naming rule for `OPENAI_SERVICE_NAME`. -/
def openaiServiceRule : NamingRule :=
  { pattern := Pat.firstRepLast alnumClass alnumHyphenClass alnumClass 0 62
    min_length := 2, max_length := 64, scope := "resource_group"
    description := "OpenAI service name"
    restrictions :=
      ["Cannot start or end with hyphen", "Alphanumeric and hyphens only"] }

/-- Naming rule for `LOG_WORKSPACE_NAME`. -/
def logWorkspaceRule : NamingRule :=
  { pattern := Pat.firstRepLast alnumClass alnumHyphenClass alnumClass 2 61
    min_length := 4, max_length := 63, scope := "resource_group"
    description := "Log Analytics workspace name"
    restrictions :=
      ["Cannot start or end with hyphen", "Alphanumeric and hyphens only"] }

/-- Naming rule for `APPLICATION_INSIGHTS_NAME`. -/
def applicationInsightsRule : NamingRule :=
  { pattern := Pat.firstRepLast alnumClass alnumExtendedClass alnumClass 0 258
    min_length := 1, max_length := 260, scope := "resource_group"
    description := "Application Insights component name"
    restrictions :=
      ["Most characters allowed",
       "Cannot contain: <, >, %, &, \\, ?, /, control characters"] }

/-- Naming rule for `RESOURCE_GROUP`. -/
def resourceGroupRule : NamingRule :=
  { pattern := Pat.firstRepLast alnumClass alnumExtendedClass alnumClass 0 88
    min_length := 1, max_length := 90, scope := "subscription"
    description := "Resource Group name"
    restrictions :=
      ["Cannot end with period",
       "Alphanumeric, underscore, parentheses, hyphen, period allowed"] }

/-- The naming-rule catalog `AzureResourceValidator.NAMING_PATTERNS`, in
source (dict-insertion) order. -/
def NAMING_PATTERNS : List (String × NamingRule) :=
  [("KEYVAULT_NAME", keyVaultRule),
   ("STORAGE_ACCOUNT_NAME", storageAccountRule),
   ("CONTAINER_REGISTRY_NAME", containerRegistryRule),
   ("COGNITIVE_SEARCH_NAME", cognitiveSearchRule),
   ("AI_SERVICES_NAME", aiServicesRule),
   ("OPENAI_SERVICE_NAME", openaiServiceRule),
   ("LOG_WORKSPACE_NAME", logWorkspaceRule),
   ("APPLICATION_INSIGHTS_NAME", applicationInsightsRule),
   ("RESOURCE_GROUP", resourceGroupRule)]

/-- One entry of `AzureResourceValidator.AZURE_REGIONS`: the three
capability flags of a region, in source order `ai_services`, `openai`,
`search`. -/
structure RegionCapability where
  ai_services : Bool
  openai : Bool
  search : Bool
deriving DecidableEq, Repr

/-- The region-capability table `AzureResourceValidator.AZURE_REGIONS`,
in source order; fields are `ai_services`, `openai`, `search`. -/
def AZURE_REGIONS : List (String × RegionCapability) :=
  [("eastus", ⟨true, true, true⟩),
   ("eastus2", ⟨true, true, true⟩),
   ("westus", ⟨true, true, true⟩),
   ("westus2", ⟨true, true, true⟩),
   ("westus3", ⟨true, false, true⟩),
   ("centralus", ⟨true, true, true⟩),
   ("northcentralus", ⟨true, false, true⟩),
   ("southcentralus", ⟨true, true, true⟩),
   ("westcentralus", ⟨true, false, true⟩),
   ("canadacentral", ⟨true, true, true⟩),
   ("canadaeast", ⟨true, false, true⟩),
   ("brazilsouth", ⟨true, false, true⟩),
   ("northeurope", ⟨true, true, true⟩),
   ("westeurope", ⟨true, true, true⟩),
   ("francecentral", ⟨true, true, true⟩),
   ("germanywestcentral", ⟨true, false, true⟩),
   ("norwayeast", ⟨true, false, true⟩),
   ("switzerlandnorth", ⟨true, true, true⟩),
   ("uksouth", ⟨true, true, true⟩),
   ("ukwest", ⟨true, false, true⟩),
   ("eastasia", ⟨true, false, true⟩),
   ("southeastasia", ⟨true, false, true⟩),
   ("australiaeast", ⟨true, true, true⟩),
   ("australiasoutheast", ⟨true, false, true⟩),
   ("centralindia", ⟨true, false, true⟩),
   ("southindia", ⟨true, false, true⟩),
   ("westindia", ⟨true, false, true⟩),
   ("japaneast", ⟨true, true, true⟩),
   ("japanwest", ⟨true, false, true⟩),
   ("koreacentral", ⟨true, false, true⟩),
   ("koreasouth", ⟨true, false, true⟩)]

/-- One entry of `AzureResourceValidator.VALID_SKUS`. -/
structure SkuRule where
  valid_values : List String
  limitations : List (String × String)
deriving DecidableEq, Repr

/-- SKU rule for `AI_SERVICES_SKU`. -/
def aiServicesSkuRule : SkuRule :=
  { valid_values := ["F0", "S0", "S1", "S2", "S3", "S4"]
    limitations :=
      [("F0", "Free tier: 20 transactions/minute, limited features"),
       ("S0", "Standard: Pay-per-use, full features")] }

/-- SKU rule for `OPENAI_SKU`. -/
def openaiSkuRule : SkuRule :=
  { valid_values := ["S0"]
    limitations := [("S0", "Standard: Pay-per-token consumption")] }

/-- SKU rule for `SEARCH_SKU`. -/
def searchSkuRule : SkuRule :=
  { valid_values :=
      ["free", "basic", "standard", "standard2", "standard3",
       "storage_optimized_l1", "storage_optimized_l2"]
    limitations :=
      [("free", "Free: 50MB storage, 3 indexes, 10k documents"),
       ("basic", "Basic: 2GB storage, 15 indexes, 1M documents")] }

/-- SKU rule for `STORAGE_SKU`. -/
def storageSkuRule : SkuRule :=
  { valid_values :=
      ["Standard_LRS", "Standard_GRS", "Standard_RAGRS",
       "Standard_ZRS", "Premium_LRS", "Premium_ZRS"]
    limitations :=
      [("Standard_LRS", "Locally redundant storage"),
       ("Premium_LRS", "Premium requires specific VM types")] }

/-- SKU rule for `CONTAINER_REGISTRY_SKU`. -/
def containerRegistrySkuRule : SkuRule :=
  { valid_values := ["Basic", "Standard", "Premium"]
    limitations :=
      [("Basic", "Basic: 10GB storage, limited features"),
       ("Premium", "Premium: 500GB storage, advanced features")] }

/-- SKU rule for `LOG_ANALYTICS_SKU`. -/
def logAnalyticsSkuRule : SkuRule :=
  { valid_values := ["PerGB2018", "Free", "Standalone", "PerNode"]
    limitations :=
      [("Free", "Free: 500MB/day limit, 7-day retention"),
       ("PerGB2018", "Pay per GB ingested")] }

/-- The SKU catalog `AzureResourceValidator.VALID_SKUS`, in source order. -/
def VALID_SKUS : List (String × SkuRule) :=
  [("AI_SERVICES_SKU", aiServicesSkuRule),
   ("OPENAI_SKU", openaiSkuRule),
   ("SEARCH_SKU", searchSkuRule),
   ("STORAGE_SKU", storageSkuRule),
   ("CONTAINER_REGISTRY_SKU", containerRegistrySkuRule),
   ("LOG_ANALYTICS_SKU", logAnalyticsSkuRule)]

/-- The loaded configuration mapping `EnvironmentValidator.config`:
an insertion-ordered association list with string keys. -/
abbrev Config := List (String × String)

/-- Findings contributed to the three accumulator lists by one check (or
one piece of a check), in append order. -/
structure Findings where
  errors : List String
  warnings : List String
  info_messages : List String
deriving DecidableEq, Repr

/-- Findings with all three lists empty. -/
def emptyFindings : Findings := ⟨[], [], []⟩

instance : Append Findings :=
  ⟨fun f g => ⟨f.errors ++ g.errors, f.warnings ++ g.warnings,
               f.info_messages ++ g.info_messages⟩⟩

/-- Message of `validate_azure_naming` for a pattern mismatch. -/
def namingMismatchMsg (descr value : String) : String :=
  "Invalid " ++ descr ++ ": " ++ squo ++ value ++ squo ++ " does not match required pattern"

/-- Per-restriction follow-up line of `validate_azure_naming`. -/
def restrictionLine (r : String) : String := "  - " ++ r

/-- Message of `validate_azure_naming` for a length violation. -/
def namingLengthMsg (descr value : String) (mn mx : Nat) : String :=
  "Invalid " ++ descr ++ " length: " ++ squo ++ value ++ squo ++ " ("
    ++ toString value.length ++ " chars, must be "
    ++ toString mn ++ "-" ++ toString mx ++ ")"

/-- Global-uniqueness warning of `validate_azure_naming`. -/
def shortNameWarning (descr value : String) : String :=
  descr ++ " " ++ squo ++ value ++ squo
    ++ " is short and may conflict with existing global resources"

/-- Findings contributed by `validate_azure_naming` for one rule whose key
is present with the given value: the pattern check, the independent length
check, and the global-scope short-name warning, in source order. -/
def namingFindingsFor (r : NamingRule) (value : String) : Findings :=
  { errors :=
      (if Pat.matches r.pattern value = false then
        namingMismatchMsg r.description value :: r.restrictions.map restrictionLine
       else [])
      ++ (if value.length < r.min_length ∨ r.max_length < value.length then
            [namingLengthMsg r.description value r.min_length r.max_length]
          else [])
    warnings :=
      (if r.scope = "global" then
        (if value.length < 8 then [shortNameWarning r.description value] else [])
       else [])
    info_messages := [] }

/-- The check `EnvironmentValidator.validate_azure_naming`. -/
def validate_azure_naming (config : Config) : Findings :=
  NAMING_PATTERNS.foldl
    (fun acc kr =>
      match config.lookup kr.1 with
      | some value => acc ++ namingFindingsFor kr.2 value
      | none => acc)
    emptyFindings

/-- Warning of `validate_azure_location` for a region not in the table. -/
def uncommonRegionMsg (loc : String) : String :=
  "Uncommon Azure location: " ++ squo ++ loc ++ squo
    ++ ". Verify all services are available in this region."

/-- Error of `validate_azure_location` when `ai_services` is false. -/
def aiServicesUnavailableMsg (loc : String) : String :=
  "AI Services not available in region: " ++ loc

/-- Error of `validate_azure_location` when `openai` is false. -/
def openaiUnavailableMsg (loc : String) : String :=
  "Azure OpenAI not available in region: " ++ loc

/-- Warning of `validate_azure_location` when `search` is false. -/
def searchLimitedMsg (loc : String) : String :=
  "Cognitive Search may have limited availability in region: " ++ loc

/-- The check `EnvironmentValidator.validate_azure_location`. -/
def validate_azure_location (config : Config) : Findings :=
  match config.lookup "LOCATION" with
  | none => emptyFindings
  | some v =>
      let location := pyLower v
      match AZURE_REGIONS.lookup location with
      | none => ⟨[], [uncommonRegionMsg location], []⟩
      | some rc =>
          { errors :=
              (if rc.ai_services = false then [aiServicesUnavailableMsg location] else [])
              ++ (if rc.openai = false then [openaiUnavailableMsg location] else [])
            warnings :=
              (if rc.search = false then [searchLimitedMsg location] else [])
            info_messages := [] }

/-- Error of `validate_sku_configurations` for a value outside
`valid_values`, listing the allowed set comma-joined in catalog order. -/
def skuInvalidMsg (key v : String) (valids : List String) : String :=
  "Invalid " ++ key ++ ": " ++ squo ++ v ++ squo ++ ". Valid options: "
    ++ String.intercalate ", " valids

/-- Info message of `validate_sku_configurations` for a valid value with a
limitation note. -/
def skuInfoMsg (key v lim : String) : String :=
  key ++ " (" ++ v ++ "): " ++ lim

/-- Findings contributed by `validate_sku_configurations` for one SKU rule
whose key is present with the given value. -/
def skuFindingsFor (key : String) (sr : SkuRule) (v : String) : Findings :=
  if sr.valid_values.contains v = false then
    ⟨[skuInvalidMsg key v sr.valid_values], [], []⟩
  else
    match sr.limitations.lookup v with
    | some lim => ⟨[], [], [skuInfoMsg key v lim]⟩
    | none => emptyFindings

/-- The check `EnvironmentValidator.validate_sku_configurations`. -/
def validate_sku_configurations (config : Config) : Findings :=
  VALID_SKUS.foldl
    (fun acc ks =>
      match config.lookup ks.1 with
      | some v => acc ++ skuFindingsFor ks.1 ks.2 v
      | none => acc)
    emptyFindings

/-- The fixed list `boolean_vars` of `validate_boolean_values`. -/
def boolean_vars : List String :=
  ["ENABLE_DIAGNOSTICS", "ENABLE_SOFT_DELETE", "ENABLE_PURGE_PROTECTION",
   "VALIDATE_DEPLOYMENT", "DRY_RUN", "VERBOSE_LOGGING"]

/-- Error of `validate_boolean_values`; the reported value is the
lower-cased one, as in the source. -/
def boolInvalidMsg (var v : String) : String :=
  "Invalid boolean value for " ++ var ++ ": " ++ squo ++ v ++ squo
    ++ " (must be " ++ squo ++ "true" ++ squo ++ " or " ++ squo ++ "false" ++ squo ++ ")"

/-- The check `EnvironmentValidator.validate_boolean_values`. -/
def validate_boolean_values (config : Config) : Findings :=
  boolean_vars.foldl
    (fun acc var =>
      match config.lookup var with
      | some v0 =>
          let v := pyLower v0
          if (v = "true" ∨ v = "false") then acc
          else acc ++ ⟨[boolInvalidMsg var v], [], []⟩
      | none => acc)
    emptyFindings

/-- Error of `validate_network_access` for an invalid level. -/
def networkInvalidMsg (v : String) : String :=
  "Invalid NETWORK_ACCESS: " ++ squo ++ v ++ squo ++ ". Valid options: "
    ++ String.intercalate ", " ["Public", "Private", "Restricted"]

/-- Warning of `validate_network_access` for level `Private`. -/
def privateNetworkWarn : String :=
  "Private network access requires VNet configuration and may affect connectivity"

/-- The check `EnvironmentValidator.validate_network_access`. -/
def validate_network_access (config : Config) : Findings :=
  match config.lookup "NETWORK_ACCESS" with
  | none => emptyFindings
  | some a =>
      if (["Public", "Private", "Restricted"].contains a) = false then
        ⟨[networkInvalidMsg a], [], []⟩
      else if a = "Private" then ⟨[], [privateNetworkWarn], []⟩
      else emptyFindings

/-- Character class of the local part of the email regex:
`[a-zA-Z0-9._%+-]`. -/
def emailLocalChar (c : Char) : Bool :=
  alnumClass.mem c || c == '.' || c == '_' || c == '%' || c == '+' || c == '-'

/-- Character class of the domain part of the email regex: `[a-zA-Z0-9.-]`. -/
def emailDomainChar (c : Char) : Bool :=
  alnumClass.mem c || c == '.' || c == '-'

/-- Full-string matching of the email regex
`^[a-zA-Z0-9._%+-]+@[a-zA-Z0-9.-]+\.[a-zA-Z]{2,}$`: there is a position
`i` holding the (necessarily unique) `@` and a position `j > i` holding
the final literal dot, with a nonempty local part before `i`, a nonempty
domain run between, and at least two alphabetic characters after `j`. -/
def emailMatches (s : String) : Bool :=
  let cs := s.toList
  let n := cs.length
  (List.range n).any fun i =>
    (List.range n).any fun j =>
      decide (1 ≤ i) && (cs.getD i ' ' == '@') && (cs.take i).all emailLocalChar
        && decide (i + 1 < j) && (cs.getD j ' ' == '.')
        && ((cs.drop (i + 1)).take (j - (i + 1))).all emailDomainChar
        && decide (j + 3 ≤ n) && (cs.drop (j + 1)).all alphaClass.mem

/-- Warning of `validate_email_format`. -/
def emailFormatWarn (e : String) : String :=
  "RESOURCE_OWNER " ++ squo ++ e ++ squo ++ " may not be a valid email format"

/-- The check `EnvironmentValidator.validate_email_format`. -/
def validate_email_format (config : Config) : Findings :=
  match config.lookup "RESOURCE_OWNER" with
  | none => emptyFindings
  | some e =>
      if emailMatches e = false then ⟨[], [emailFormatWarn e], []⟩
      else emptyFindings

/-- Observable outcomes of `check_azure_cli_availability`, one constructor
per control path of the method: the version probe reports a nonzero exit
code; the account probe reports a nonzero exit code; both probes succeed
and the account JSON carries a subscription name and id; or one of the
four caught exceptions (timeout, process error, JSON decode error, file
not found) is raised inside the body. -/
inductive ProbeOutcome where
  | cliNotFound
  | notAuthenticated
  | authenticated (name id : String)
  | probeException
deriving DecidableEq, Repr

/-- Warning of the probe when `az --version` fails. -/
def cliNotFoundWarn : String :=
  "Azure CLI not found. Install from: https://docs.microsoft.com/en-us/cli/azure/"

/-- Warning of the probe when `az account show` fails. -/
def cliNotAuthWarn : String := "Azure CLI not authenticated. Run: az login"

/-- Warning of the probe when a caught exception is raised. -/
def cliStatusWarn : String := "Could not verify Azure CLI status"

/-- Info message of the probe on success. -/
def cliAuthInfoMsg (name id : String) : String :=
  "Azure CLI authenticated: " ++ name ++ " (" ++ id.take 8 ++ "...)"

/-- The probe `EnvironmentValidator.check_azure_cli_availability`, as a
function of its environment-dependent outcome. -/
def check_azure_cli_availability (p : ProbeOutcome) : Findings :=
  match p with
  | .cliNotFound => ⟨[], [cliNotFoundWarn], []⟩
  | .notAuthenticated => ⟨[], [cliNotAuthWarn], []⟩
  | .authenticated name id => ⟨[], [], [cliAuthInfoMsg name id]⟩
  | .probeException => ⟨[], [cliStatusWarn], []⟩

/-- Mutable state of an `EnvironmentValidator` instance: the three finding
accumulators and the loaded configuration, all initialized empty by
`__init__`. -/
structure VState where
  errors : List String
  warnings : List String
  info_messages : List String
  config : Config
deriving DecidableEq, Repr

/-- The state constructed by `EnvironmentValidator.__init__`. -/
def initState : VState := ⟨[], [], [], []⟩

/-- Appending the findings of a check to a validator state's
accumulators, as the Python methods do to `self.errors`, `self.warnings`
and `self.info_messages`. -/
def applyFindings (s : VState) (f : Findings) : VState :=
  { s with errors := s.errors ++ f.errors
           warnings := s.warnings ++ f.warnings
           info_messages := s.info_messages ++ f.info_messages }

/-- Combined findings of the seven checks run by
`validate_configuration`, in call order. -/
def allCheckFindings (config : Config) (p : ProbeOutcome) : Findings :=
  validate_azure_naming config ++ validate_azure_location config
    ++ validate_sku_configurations config ++ validate_boolean_values config
    ++ validate_network_access config ++ validate_email_format config
    ++ check_azure_cli_availability p

/-- The summary dictionary built at the end of `validate_configuration`
(timestamp and the verbose-only configuration echo omitted). The
`num_` fields are the `validation_results` counters. -/
structure ValidationSummary where
  total_variables : Nat
  num_errors : Nat
  num_warnings : Nat
  num_info_messages : Nat
  errors : List String
  warnings : List String
  info_messages : List String
  is_valid : Bool
deriving DecidableEq, Repr

/-- Summary built from a validator state, mirroring the dictionary
literal of `validate_configuration`. -/
def mkSummary (s : VState) : ValidationSummary :=
  { total_variables := s.config.length
    num_errors := s.errors.length
    num_warnings := s.warnings.length
    num_info_messages := s.info_messages.length
    errors := s.errors
    warnings := s.warnings
    info_messages := s.info_messages
    is_valid := s.errors.length == 0 }

/-- The method `EnvironmentValidator.validate_configuration`: runs all
seven checks, appending their findings to the instance accumulators, and
returns the updated instance state together with the boolean verdict and
the summary. -/
def validate_configuration (s : VState) (p : ProbeOutcome) :
    VState × Bool × ValidationSummary :=
  let s1 := applyFindings s (allCheckFindings s.config p)
  (s1, s1.errors.length == 0, mkSummary s1)

/-- The `required_vars` list of `load_config`, in source order. -/
def required_vars : List String :=
  ["LOCATION", "RESOURCE_GROUP", "KEYVAULT_NAME",
   "AI_SERVICES_NAME", "OPENAI_SERVICE_NAME", "COGNITIVE_SEARCH_NAME",
   "STORAGE_ACCOUNT_NAME", "CONTAINER_REGISTRY_NAME",
   "LOG_WORKSPACE_NAME", "APPLICATION_INSIGHTS_NAME"]

/-- The `optional_vars` list of `load_config`, in source order. -/
def optional_vars : List String :=
  ["ENVIRONMENT", "PROJECT_NAME", "RESOURCE_OWNER", "COST_CENTER",
   "AI_SERVICES_SKU", "OPENAI_SKU", "SEARCH_SKU", "STORAGE_SKU",
   "CONTAINER_REGISTRY_SKU", "LOG_ANALYTICS_SKU",
   "ENABLE_DIAGNOSTICS", "ENABLE_SOFT_DELETE", "ENABLE_PURGE_PROTECTION",
   "NETWORK_ACCESS", "VALIDATE_DEPLOYMENT", "DRY_RUN", "VERBOSE_LOGGING"]

/-- The environment visible through `os.getenv` after `load_dotenv`, as an
association list. -/
abbrev Env := List (String × String)

/-- Missing-or-empty test of the required-variable loop of `load_config`:
`os.getenv` returned nothing, or the value is empty after stripping. -/
def missingIn (env : Env) (var : String) : Bool :=
  match env.lookup var with
  | none => true
  | some v => pyStrip v == ""

/-- Error message of `load_config` for one missing required variable. -/
def missingVarMsg (var : String) : String :=
  "Required environment variable missing or empty: " ++ var

/-- Error message of `load_config` when the env file does not exist. -/
def fileNotFoundMsg (envFile : String) : String :=
  "Environment file not found: " ++ envFile

/-- The required-variable loop of `load_config`: collects the missing
variables and the stripped values of the present ones, in list order. -/
def collectVars (env : Env) (vars : List String) :
    List String × List (String × String) :=
  vars.foldl
    (fun acc var =>
      match env.lookup var with
      | none => (acc.1 ++ [var], acc.2)
      | some v =>
          if pyStrip v == "" then (acc.1 ++ [var], acc.2)
          else (acc.1, acc.2 ++ [(var, pyStrip v)]))
    ([], [])

/-- The optional-variable loop of `load_config`: keeps the stripped values
of the present, nonempty ones. -/
def collectOptional (env : Env) (vars : List String) : List (String × String) :=
  vars.foldl
    (fun acc var =>
      match env.lookup var with
      | none => acc
      | some v => if pyStrip v == "" then acc else acc ++ [(var, pyStrip v)])
    []

/-- The method `EnvironmentValidator.load_config`: reports a missing env
file, collects required variables (adding one error per missing one and
returning failure), then loads the optional variables. The present
required variables are added to `self.config` before the missing check,
as in the source. -/
def load_config (s : VState) (envFile : String) (fileExists : Bool)
    (env : Env) : Bool × VState :=
  if fileExists = false then
    (false, { s with errors := s.errors ++ [fileNotFoundMsg envFile] })
  else
    let req := collectVars env required_vars
    if req.1 = [] then
      (true, { s with config := s.config ++ req.2 ++ collectOptional env optional_vars })
    else
      (false, { s with config := s.config ++ req.2
                       errors := s.errors ++ req.1.map missingVarMsg })

/-- The summary dictionary `main` builds on load failure (its non-JSON
branch): zero variables, the loader's errors, empty warning and info
lists, `is_valid` false. -/
def loadFailureSummary (s : VState) : ValidationSummary :=
  { total_variables := 0
    num_errors := s.errors.length
    num_warnings := 0
    num_info_messages := 0
    errors := s.errors
    warnings := []
    info_messages := []
    is_valid := false }

/-- The flow of `main`: construct a fresh validator, load the
configuration, and either stop with the load-failure summary and exit
code 1 or run `validate_configuration` and exit with 0 iff valid. -/
def runMain (envFile : String) (fileExists : Bool) (env : Env)
    (p : ProbeOutcome) : ValidationSummary × Nat :=
  let r := load_config initState envFile fileExists env
  if r.1 then
    let v := validate_configuration r.2 p
    (v.2.2, if v.2.1 then 0 else 1)
  else
    (loadFailureSummary r.2, 1)

/-- Helper: on a one-entry configuration whose key belongs to the naming
catalog, `validate_azure_naming` produces exactly that rule's findings. -/
theorem naming_single (key : String) (r : NamingRule)
    (h : (key, r) ∈ NAMING_PATTERNS) (value : String) :
    validate_azure_naming [(key, value)] = namingFindingsFor r value := by
  simp only [NAMING_PATTERNS, List.mem_cons, List.not_mem_nil, or_false,
    Prod.mk.injEq] at h
  rcases h with h | h | h | h | h | h | h | h | h <;>
    obtain ⟨rfl, rfl⟩ := h <;> rfl

/-- Helper: on a one-entry configuration whose key belongs to the SKU
catalog, `validate_sku_configurations` produces exactly that rule's
findings. -/
theorem sku_single (key : String) (sr : SkuRule)
    (h : (key, sr) ∈ VALID_SKUS) (v : String) :
    validate_sku_configurations [(key, v)] = skuFindingsFor key sr v := by
  simp only [VALID_SKUS, List.mem_cons, List.not_mem_nil, or_false,
    Prod.mk.injEq] at h
  rcases h with h | h | h | h | h | h <;>
    obtain ⟨rfl, rfl⟩ := h <;> rfl

/-- Helper: the probe contributes no errors on any outcome. -/
theorem probe_no_errors (p : ProbeOutcome) :
    (check_azure_cli_availability p).errors = [] := by
  cases p <;> rfl

/-- Helper: the error list of the summary is the instance's prior errors
followed by the checks' contributions. -/
theorem validate_configuration_errors (s : VState) (p : ProbeOutcome) :
    (validate_configuration s p).2.2.errors
      = s.errors ++ (allCheckFindings s.config p).errors := rfl

/-- Helper: the checks' error contributions, in call order. -/
theorem allCheckFindings_errors (config : Config) (p : ProbeOutcome) :
    (allCheckFindings config p).errors =
      (validate_azure_naming config).errors
        ++ (validate_azure_location config).errors
        ++ (validate_sku_configurations config).errors
        ++ (validate_boolean_values config).errors
        ++ (validate_network_access config).errors
        ++ (validate_email_format config).errors
        ++ (check_azure_cli_availability p).errors := rfl

/-- Helper: the summary's validity bit is the emptiness test of its own
error list. -/
theorem validate_configuration_is_valid (s : VState) (p : ProbeOutcome) :
    (validate_configuration s p).2.2.is_valid
      = ((validate_configuration s p).2.2.errors.length == 0) := rfl

/-- Helper: a value reached by `lookup` in a table satisfies any predicate
all table entries satisfy. -/
theorem all_lookup {β : Type} (Q : β → Bool) :
    ∀ (l : List (String × β)), l.all (fun p => Q p.2) = true →
      ∀ (k : String) (v : β), l.lookup k = some v → Q v = true := by
  intro l
  induction l with
  | nil => intro _ k v h; simp [List.lookup] at h
  | cons p rest ih =>
      intro hall k v h
      rw [List.all_cons, Bool.and_eq_true] at hall
      obtain ⟨k1, b1⟩ := p
      cases hk : k == k1 with
      | true =>
          simp [List.lookup, hk] at h
          exact h ▸ hall.1
      | false =>
          simp [List.lookup, hk] at h
          exact ih hall.2 k v h

/-- Helper: the missing-variable component of the required-variable loop
of `load_config` is the sublist of variables that are absent or blank. -/
theorem collectVars_fst (env : Env) (vars : List String) :
    (collectVars env vars).1 = vars.filter (fun v => missingIn env v) := by
  suffices h : ∀ acc : List String × List (String × String),
      (vars.foldl
        (fun acc var =>
          match env.lookup var with
          | none => (acc.1 ++ [var], acc.2)
          | some v =>
              if pyStrip v == "" then (acc.1 ++ [var], acc.2)
              else (acc.1, acc.2 ++ [(var, pyStrip v)]))
        acc).1
      = acc.1 ++ vars.filter (fun v => missingIn env v) by
    simpa [collectVars] using h ([], [])
  induction vars with
  | nil => intro acc; simp
  | cons v vs ih =>
      intro acc
      rw [List.foldl_cons, List.filter_cons]
      cases hl : env.lookup v with
      | none =>
          have hmv : missingIn env v = true := by simp [missingIn, hl]
          simp only [hl, hmv, if_true]
          rw [ih]
          simp [List.append_assoc]
      | some sv =>
          cases ht : (pyStrip sv == "") with
          | true =>
              have hmv : missingIn env v = true := by simp [missingIn, hl, ht]
              simp only [hl, ht, hmv, if_true]
              rw [ih]
              simp [List.append_assoc]
          | false =>
              have hmv : missingIn env v = false := by simp [missingIn, hl, ht]
              simp only [hl, ht, hmv, Bool.false_eq_true, if_false]
              exact ih (acc.1, acc.2 ++ [(v, pyStrip sv)])

/-- C2: for every naming rule whose key is present, a pattern mismatch
emits exactly one error naming the rule's description and the value,
followed by one error per restriction in order, and, independently of the
pattern outcome, a value length outside the inclusive bounds emits one
separate length error; neither check short-circuits the other. -/
theorem naming_pattern_and_length_errors (key : String) (r : NamingRule)
    (h : (key, r) ∈ NAMING_PATTERNS) (value : String) :
    (validate_azure_naming [(key, value)]).errors =
      (if Pat.matches r.pattern value = false then
        namingMismatchMsg r.description value :: r.restrictions.map restrictionLine
       else [])
      ++ (if value.length < r.min_length ∨ r.max_length < value.length then
            [namingLengthMsg r.description value r.min_length r.max_length]
          else []) := by
  rw [naming_single key r h value]; rfl

/-- Witness for C2 at the spec's scenario C: `STORAGE_ACCOUNT_NAME=ST1`
fails the pattern (uppercase), giving the mismatch error plus the three
restriction errors, and no length error. -/
theorem naming_pattern_and_length_errors_witness :
    ("STORAGE_ACCOUNT_NAME", storageAccountRule) ∈ NAMING_PATTERNS
    ∧ (validate_azure_naming [("STORAGE_ACCOUNT_NAME", "ST1")]).errors =
      (if Pat.matches storageAccountRule.pattern "ST1" = false then
        namingMismatchMsg storageAccountRule.description "ST1"
          :: storageAccountRule.restrictions.map restrictionLine
       else [])
      ++ (if ("ST1").length < storageAccountRule.min_length
            ∨ storageAccountRule.max_length < ("ST1").length then
            [namingLengthMsg storageAccountRule.description "ST1"
              storageAccountRule.min_length storageAccountRule.max_length]
          else []) :=
  ⟨by decide,
   naming_pattern_and_length_errors "STORAGE_ACCOUNT_NAME" storageAccountRule
     (by decide) "ST1"⟩

/-- C3: for a naming rule of scope `global` whose key is present, the
collision-risk warning is emitted exactly for values shorter than 8
characters, regardless of the pattern and length-check outcomes. -/
theorem global_short_name_warning_iff (key : String) (r : NamingRule)
    (h : (key, r) ∈ NAMING_PATTERNS) (hg : r.scope = "global")
    (value : String) :
    (shortNameWarning r.description value
        ∈ (validate_azure_naming [(key, value)]).warnings
      ↔ value.length < 8) := by
  rw [naming_single key r h value]
  simp only [namingFindingsFor, hg, if_pos rfl]
  by_cases hv : value.length < 8 <;> simp [hv]

/-- Witness for C3: `KEYVAULT_NAME=abc` has length 3 < 8 and its rule has
global scope, so the collision warning is present. -/
theorem global_short_name_warning_iff_witness :
    (("KEYVAULT_NAME", keyVaultRule) ∈ NAMING_PATTERNS
     ∧ keyVaultRule.scope = "global")
    ∧ (shortNameWarning keyVaultRule.description "abc"
        ∈ (validate_azure_naming [("KEYVAULT_NAME", "abc")]).warnings
      ↔ ("abc").length < 8) :=
  ⟨⟨by decide, rfl⟩,
   global_short_name_warning_iff "KEYVAULT_NAME" keyVaultRule (by decide) rfl "abc"⟩

/-- C4: when the lower-cased region value is absent from the
region-capability table, the region check emits exactly one warning and
nothing else: no capability error and no capability warning. -/
theorem unknown_region_single_warning (config : Config) (value : String)
    (h1 : config.lookup "LOCATION" = some value)
    (h2 : AZURE_REGIONS.lookup (pyLower value) = none) :
    validate_azure_location config
      = ⟨[], [uncommonRegionMsg (pyLower value)], []⟩ := by
  unfold validate_azure_location
  rw [h1]
  simp only [h2]

/-- Witness for C4 at `LOCATION=mars`, a region not in the table. -/
theorem unknown_region_single_warning_witness :
    (List.lookup "LOCATION" [("LOCATION", "mars")] = some "mars"
     ∧ AZURE_REGIONS.lookup (pyLower "mars") = none)
    ∧ validate_azure_location [("LOCATION", "mars")]
        = ⟨[], [uncommonRegionMsg (pyLower "mars")], []⟩ :=
  ⟨⟨rfl, by decide⟩,
   unknown_region_single_warning [("LOCATION", "mars")] "mars" rfl (by decide)⟩

/-- C6: for every SKU rule whose key is present, a value outside
`valid_values` yields exactly one error listing the allowed set
comma-joined in catalog order and no info finding, while a valid value
with a limitation entry yields exactly one info finding carrying the note
and no error. -/
theorem sku_value_findings (key : String) (sr : SkuRule)
    (h : (key, sr) ∈ VALID_SKUS) (v : String) :
    validate_sku_configurations [(key, v)] =
      (if sr.valid_values.contains v = false then
        ⟨[skuInvalidMsg key v sr.valid_values], [], []⟩
       else
        match sr.limitations.lookup v with
        | some lim => ⟨[], [], [skuInfoMsg key v lim]⟩
        | none => emptyFindings) := by
  rw [sku_single key sr h v]; rfl

/-- Witness for C6: `CONTAINER_REGISTRY_SKU=Basic` is valid and has a
limitation note, so exactly one info finding and no error result. -/
theorem sku_value_findings_witness :
    ("CONTAINER_REGISTRY_SKU", containerRegistrySkuRule) ∈ VALID_SKUS
    ∧ validate_sku_configurations [("CONTAINER_REGISTRY_SKU", "Basic")] =
      (if containerRegistrySkuRule.valid_values.contains "Basic" = false then
        ⟨[skuInvalidMsg "CONTAINER_REGISTRY_SKU" "Basic"
            containerRegistrySkuRule.valid_values], [], []⟩
       else
        match containerRegistrySkuRule.limitations.lookup "Basic" with
        | some lim => ⟨[], [], [skuInfoMsg "CONTAINER_REGISTRY_SKU" "Basic" lim]⟩
        | none => emptyFindings) :=
  ⟨by decide,
   sku_value_findings "CONTAINER_REGISTRY_SKU" containerRegistrySkuRule
     (by decide) "Basic"⟩

/-- C1 counterexample: the finding accumulators are constructed in
`__init__`, not by `validate_configuration`, so calling the validation
pass twice on the same validator instance does not yield identical error
lists: the second call appends every finding again. Concretely, with
`LOCATION=westus3` the first call reports one error and the second call
reports it twice. -/
theorem validate_twice_same_instance_diverges :
    (validate_configuration
        (validate_configuration ⟨[], [], [], [("LOCATION", "westus3")]⟩
          ProbeOutcome.probeException).1
        ProbeOutcome.probeException).2.2.errors
      ≠ (validate_configuration ⟨[], [], [], [("LOCATION", "westus3")]⟩
          ProbeOutcome.probeException).2.2.errors := by
  decide

/-- C1 as amended: two validation passes over the same configuration and
probe outcome, each on a freshly constructed validator (accumulators
initialized empty by `__init__`), yield identical error, warning and info
lists; and a second call on the same instance instead appends all
findings a second time, doubling the error list. -/
theorem validate_fresh_instances_idempotent (config : Config)
    (p : ProbeOutcome) :
    ((validate_configuration ⟨[], [], [], config⟩ p).2.2.errors
        = (validate_configuration ⟨[], [], [], config⟩ p).2.2.errors
      ∧ (validate_configuration ⟨[], [], [], config⟩ p).2.2.warnings
        = (validate_configuration ⟨[], [], [], config⟩ p).2.2.warnings
      ∧ (validate_configuration ⟨[], [], [], config⟩ p).2.2.info_messages
        = (validate_configuration ⟨[], [], [], config⟩ p).2.2.info_messages)
    ∧ (validate_configuration
          (validate_configuration ⟨[], [], [], config⟩ p).1 p).2.2.errors
        = (validate_configuration ⟨[], [], [], config⟩ p).2.2.errors
          ++ (validate_configuration ⟨[], [], [], config⟩ p).2.2.errors :=
  ⟨⟨rfl, rfl, rfl⟩, rfl⟩

/-- C5: for any configuration whose region maps (after lower-casing) to a
table entry with `openai = false` and which includes
`OPENAI_SERVICE_NAME`, validation reports the OpenAI-unavailable error
for that region and `is_valid` is false; and for the concrete scenario
`LOCATION=westus3` with `OPENAI_SERVICE_NAME=foo`, exactly one such
error is produced. -/
theorem openai_region_error_blocks :
    (∀ (config : Config) (p : ProbeOutcome) (value : String)
        (rc : RegionCapability) (svc : String),
      config.lookup "LOCATION" = some value →
      AZURE_REGIONS.lookup (pyLower value) = some rc →
      rc.openai = false →
      config.lookup "OPENAI_SERVICE_NAME" = some svc →
      openaiUnavailableMsg (pyLower value)
          ∈ (validate_configuration ⟨[], [], [], config⟩ p).2.2.errors
        ∧ (validate_configuration ⟨[], [], [], config⟩ p).2.2.is_valid = false)
    ∧ (∀ p : ProbeOutcome,
        ((validate_configuration
            ⟨[], [], [], [("LOCATION", "westus3"), ("OPENAI_SERVICE_NAME", "foo")]⟩
            p).2.2.errors.count (openaiUnavailableMsg "westus3") = 1)) := by
  constructor
  · intro config p value rc svc h1 h2 h3 h4
    have hloc : openaiUnavailableMsg (pyLower value)
        ∈ (validate_azure_location config).errors := by
      unfold validate_azure_location
      rw [h1]
      simp [h2, h3]
    have hmem : openaiUnavailableMsg (pyLower value)
        ∈ (validate_configuration ⟨[], [], [], config⟩ p).2.2.errors := by
      rw [validate_configuration_errors, allCheckFindings_errors]
      simp only [List.mem_append]
      tauto
    refine ⟨hmem, ?_⟩
    rw [validate_configuration_is_valid]
    have hne : (validate_configuration ⟨[], [], [], config⟩ p).2.2.errors ≠ [] :=
      List.ne_nil_of_mem hmem
    simp only [beq_eq_false_iff_ne, ne_eq, List.length_eq_zero]
    exact hne
  · intro p
    rw [validate_configuration_errors, allCheckFindings_errors, probe_no_errors]
    decide

/-- Witness for C5 at scenario B: `LOCATION=westus3`,
`OPENAI_SERVICE_NAME=foo`. -/
theorem openai_region_error_blocks_witness :
    (List.lookup "LOCATION"
        [("LOCATION", "westus3"), ("OPENAI_SERVICE_NAME", "foo")] = some "westus3"
     ∧ AZURE_REGIONS.lookup (pyLower "westus3") = some ⟨true, false, true⟩
     ∧ List.lookup "OPENAI_SERVICE_NAME"
        [("LOCATION", "westus3"), ("OPENAI_SERVICE_NAME", "foo")] = some "foo")
    ∧ (openaiUnavailableMsg (pyLower "westus3")
        ∈ (validate_configuration
            ⟨[], [], [], [("LOCATION", "westus3"), ("OPENAI_SERVICE_NAME", "foo")]⟩
            ProbeOutcome.probeException).2.2.errors
      ∧ (validate_configuration
            ⟨[], [], [], [("LOCATION", "westus3"), ("OPENAI_SERVICE_NAME", "foo")]⟩
            ProbeOutcome.probeException).2.2.is_valid = false) :=
  ⟨⟨by decide, by decide, by decide⟩,
   openai_region_error_blocks.1
     [("LOCATION", "westus3"), ("OPENAI_SERVICE_NAME", "foo")]
     ProbeOutcome.probeException "westus3" ⟨true, false, true⟩ "foo"
     (by decide) (by decide) rfl (by decide)⟩

/-- C7: in every summary `validate_configuration` produces, `is_valid` is
true exactly when the error list is empty, and the warning and info
accumulators of the instance never influence `is_valid`. -/
theorem is_valid_iff_errors_empty (s : VState) (p : ProbeOutcome)
    (w i : List String) :
    ((validate_configuration s p).2.2.is_valid = true
        ↔ (validate_configuration s p).2.2.errors = [])
    ∧ (validate_configuration
          { s with warnings := w, info_messages := i } p).2.2.is_valid
        = (validate_configuration s p).2.2.is_valid := by
  constructor
  · rw [validate_configuration_is_valid]
    simp [List.length_eq_zero]
  · rfl

/-- C9: the external-tool probe contributes no error on any outcome and
at most one warning; consequently the error list and validity of the
summary do not depend on the probe outcome, and `validate_configuration`
always returns a complete summary (it is a total function of the state
and the probe outcome). -/
theorem probe_degrades_to_warning (p : ProbeOutcome) (s : VState)
    (q : ProbeOutcome) :
    (check_azure_cli_availability p).errors = []
    ∧ (check_azure_cli_availability p).warnings.length ≤ 1
    ∧ (validate_configuration s p).2.2.errors
        = (validate_configuration s q).2.2.errors
    ∧ (validate_configuration s p).2.2.is_valid
        = (validate_configuration s q).2.2.is_valid := by
  have he : (validate_configuration s p).2.2.errors
      = (validate_configuration s q).2.2.errors := by
    rw [validate_configuration_errors, validate_configuration_errors,
      allCheckFindings_errors, allCheckFindings_errors,
      probe_no_errors, probe_no_errors]
  refine ⟨probe_no_errors p, ?_, he, ?_⟩
  · cases p <;> simp [check_azure_cli_availability]
  · rw [validate_configuration_is_valid, validate_configuration_is_valid, he]

/-- C10: every region in the capability table has `ai_services = true`
and `search = true` (only the `openai` flag varies), so for a region
present in the table the region check can emit neither the
AI-Services-unavailable error nor the Cognitive-Search
limited-availability warning. -/
theorem known_regions_full_ai_search :
    (AZURE_REGIONS.all fun rc => rc.2.ai_services && rc.2.search) = true
    ∧ ∀ (config : Config) (value : String) (rc : RegionCapability),
        config.lookup "LOCATION" = some value →
        AZURE_REGIONS.lookup (pyLower value) = some rc →
        aiServicesUnavailableMsg (pyLower value)
            ∉ (validate_azure_location config).errors
        ∧ searchLimitedMsg (pyLower value)
            ∉ (validate_azure_location config).warnings := by
  refine ⟨by decide, ?_⟩
  intro config value rc h1 h2
  have hcap : (rc.ai_services && rc.search) = true :=
    all_lookup (fun rc => rc.ai_services && rc.search) AZURE_REGIONS
      (by decide) (pyLower value) rc h2
  rw [Bool.and_eq_true] at hcap
  have hlen : aiServicesUnavailableMsg (pyLower value)
      ≠ openaiUnavailableMsg (pyLower value) := by
    intro heq
    have hl := congrArg String.length heq
    rw [aiServicesUnavailableMsg, openaiUnavailableMsg,
      String.length_append, String.length_append] at hl
    have h37 : ("AI Services not available in region: ").length = 37 := rfl
    have h38 : ("Azure OpenAI not available in region: ").length = 38 := rfl
    rw [h37, h38] at hl
    omega
  constructor
  · unfold validate_azure_location
    rw [h1]
    simp [h2, hcap.1, hlen]
  · unfold validate_azure_location
    rw [h1]
    simp [h2, hcap.2]

/-- Witness for C10 at `LOCATION=eastus`, a region present in the
table. -/
theorem known_regions_full_ai_search_witness :
    (List.lookup "LOCATION" [("LOCATION", "eastus")] = some "eastus"
     ∧ AZURE_REGIONS.lookup (pyLower "eastus") = some ⟨true, true, true⟩)
    ∧ (aiServicesUnavailableMsg (pyLower "eastus")
        ∉ (validate_azure_location [("LOCATION", "eastus")]).errors
      ∧ searchLimitedMsg (pyLower "eastus")
        ∉ (validate_azure_location [("LOCATION", "eastus")]).warnings) :=
  ⟨⟨by decide, by decide⟩,
   known_regions_full_ai_search.2 [("LOCATION", "eastus")] "eastus"
     ⟨true, true, true⟩ (by decide) (by decide)⟩

/-- C8: if some required variable is absent from the environment or blank
after stripping, the run fails at load time: the resulting summary has
`is_valid = false`, its error list is exactly one missing-variable
message per missing required key (in `required_vars` order), no warnings
and no info messages appear (no rule check is executed), and the exit
code is 1. -/
theorem load_failure_all_errors (envFile : String) (env : Env)
    (p : ProbeOutcome) (v : String) (hv : v ∈ required_vars)
    (hm : missingIn env v = true) :
    (runMain envFile true env p).1.is_valid = false
    ∧ (runMain envFile true env p).1.errors
        = (required_vars.filter (fun w => missingIn env w)).map missingVarMsg
    ∧ (runMain envFile true env p).1.warnings = []
    ∧ (runMain envFile true env p).1.info_messages = []
    ∧ (runMain envFile true env p).2 = 1 := by
  have hmiss : (collectVars env required_vars).1
      = required_vars.filter (fun w => missingIn env w) :=
    collectVars_fst env required_vars
  have hne : (collectVars env required_vars).1 ≠ [] := by
    rw [hmiss]
    intro hnil
    have hvmem : v ∈ required_vars.filter (fun w => missingIn env w) :=
      List.mem_filter.mpr ⟨hv, hm⟩
    rw [hnil] at hvmem
    exact absurd hvmem (List.not_mem_nil v)
  unfold runMain load_config
  simp only [Bool.true_eq_false, if_false, hne, if_neg hne]
  simp [loadFailureSummary, initState, hmiss]

/-- Witness for C8 at scenario A: an empty environment, in which
`KEYVAULT_NAME` (like every required variable) is missing. -/
theorem load_failure_all_errors_witness :
    ("KEYVAULT_NAME" ∈ required_vars ∧ missingIn [] "KEYVAULT_NAME" = true)
    ∧ ((runMain ".env" true [] ProbeOutcome.probeException).1.is_valid = false
      ∧ (runMain ".env" true [] ProbeOutcome.probeException).1.errors
          = (required_vars.filter (fun w => missingIn [] w)).map missingVarMsg
      ∧ (runMain ".env" true [] ProbeOutcome.probeException).1.warnings = []
      ∧ (runMain ".env" true [] ProbeOutcome.probeException).1.info_messages = []
      ∧ (runMain ".env" true [] ProbeOutcome.probeException).2 = 1) :=
  ⟨⟨by decide, rfl⟩,
   load_failure_all_errors ".env" [] ProbeOutcome.probeException
     "KEYVAULT_NAME" (by decide) rfl⟩
